import Mathlib

/-!
Verification of the cart / checkout workflow engine of the `anora.cafe`
terminal storefront.  The Rust source is embedded shallowly: structs become
Lean structures, `String` stays `String` (`push` / `dropRight 1` model Rust
`push` / `pop`), `i32` quantities and prices become `Int`, `Uuid` becomes an
opaque `Nat`, `Instant` becomes an explicit `Nat` clock threaded through the
cache operations, and the one backend call reachable from the embedded
transitions (`db.save_address`) becomes an explicit `Option SavedAddress`
reply parameter.
-/

namespace Anora

/-! ## Domain model (src/models/product.rs) -/

inductive ProductCategory
  | Featured
  | Originals
deriving DecidableEq, Repr

inductive RoastLevel
  | Light
  | Medium
  | Dark
deriving DecidableEq, Repr

inductive ProductType
  | Subscription
  | OneTime
deriving DecidableEq, Repr

structure Product where
  id : Nat
  name : String
  slug : String
  description : String
  price_cents : Int
  category : ProductCategory
  roast_level : Option RoastLevel
  weight_oz : Int
  bean_type : String
  product_type : ProductType
  highlight_color : String
  region_id : String
  in_stock : Bool
deriving DecidableEq, Repr

/-! ## Cart (src/models/cart.rs) -/

structure CartItem where
  id : Nat
  product : Product
  quantity : Int
deriving DecidableEq, Repr

/-- `CartItem::total_cents`. -/
def CartItem.total_cents (i : CartItem) : Int :=
  i.product.price_cents * i.quantity

structure Cart where
  items : List CartItem
deriving DecidableEq, Repr

/-- `Cart::new`. -/
def Cart.new : Cart := ⟨[]⟩

/-- The search predicate used by every `iter_mut().find(...)` in cart.rs. -/
def cartKey (pid : Nat) (i : CartItem) : Bool := i.product.id == pid

/-- Rust `iter_mut().find(p)` followed by a mutation `f` of the found element:
modify the first element satisfying `p`, leave the list unchanged otherwise. -/
def updateFirst (p : α → Bool) (f : α → α) : List α → List α
  | [] => []
  | x :: xs => if p x then f x :: xs else x :: updateFirst p f xs

/-- `Cart::add_item`.  `freshId` stands for the `Uuid::new_v4()` drawn for a
newly created `CartItem`. -/
def Cart.add_item (c : Cart) (product : Product) (quantity : Int) (freshId : Nat) : Cart :=
  match c.items.find? (cartKey product.id) with
  | some _ =>
      ⟨updateFirst (cartKey product.id)
        (fun i => { i with quantity := i.quantity + quantity }) c.items⟩
  | none =>
      ⟨c.items ++ [{ id := freshId, product := product, quantity := quantity }]⟩

/-- `Cart::remove_item` (`retain(|i| i.product.id != product_id)`). -/
def Cart.remove_item (c : Cart) (product_id : Nat) : Cart :=
  ⟨c.items.filter (fun i => !(cartKey product_id i))⟩

/-- `Cart::update_quantity`. -/
def Cart.update_quantity (c : Cart) (product_id : Nat) (quantity : Int) : Cart :=
  match c.items.find? (cartKey product_id) with
  | some _ =>
      if quantity ≤ 0 then c.remove_item product_id
      else ⟨updateFirst (cartKey product_id) (fun i => { i with quantity := quantity }) c.items⟩
  | none => c

/-- `Cart::increment_item`. -/
def Cart.increment_item (c : Cart) (product_id : Nat) : Cart :=
  match c.items.find? (cartKey product_id) with
  | some _ =>
      ⟨updateFirst (cartKey product_id) (fun i => { i with quantity := i.quantity + 1 }) c.items⟩
  | none => c

/-- `Cart::decrement_item`. -/
def Cart.decrement_item (c : Cart) (product_id : Nat) : Cart :=
  match c.items.find? (cartKey product_id) with
  | some item =>
      if 1 < item.quantity then
        ⟨updateFirst (cartKey product_id) (fun i => { i with quantity := i.quantity - 1 }) c.items⟩
      else c.remove_item product_id
  | none => c

/-- `Cart::total_items`. -/
def Cart.total_items (c : Cart) : Int :=
  (c.items.map CartItem.quantity).sum

/-- `Cart::subtotal_cents`. -/
def Cart.subtotal_cents (c : Cart) : Int :=
  (c.items.map CartItem.total_cents).sum

/-- `Cart::is_empty`. -/
def Cart.is_empty (c : Cart) : Bool := c.items.isEmpty

/-- `Cart::clear`. -/
def Cart.clear (_ : Cart) : Cart := ⟨[]⟩

/-- The quantity stored for a product id, read off the first matching line
(the line `iter().find` would return); `none` when no line matches. -/
def Cart.qty (c : Cart) (pid : Nat) : Option Int :=
  (c.items.find? (cartKey pid)).map CartItem.quantity

/-- The cart invariant of the spec: at most one line per product id, and
every line's quantity is at least 1. -/
def CartInv (c : Cart) : Prop :=
  c.items.Pairwise (fun a b => a.product.id ≠ b.product.id) ∧
  ∀ i ∈ c.items, 1 ≤ i.quantity

/-! ### List lemmas about `updateFirst` and `find?` -/

theorem updateFirst_decomp {p : α → Bool} (f : α → α) {l : List α} {a : α}
    (h : l.find? p = some a) :
    ∃ l₁ l₂, l = l₁ ++ a :: l₂ ∧ (∀ x ∈ l₁, p x = false) ∧
      updateFirst p f l = l₁ ++ f a :: l₂ := by
  induction l with
  | nil => simp at h
  | cons x xs ih =>
    by_cases hx : p x
    · rw [List.find?_cons_of_pos _ hx] at h
      obtain rfl : x = a := by injection h
      exact ⟨[], xs, rfl, by simp, by simp [updateFirst, hx]⟩
    · rw [List.find?_cons_of_neg _ hx] at h
      obtain ⟨l₁, l₂, hl, h1, h2⟩ := ih h
      refine ⟨x :: l₁, l₂, by simp [hl], ?_, ?_⟩
      · intro y hy
        rcases List.mem_cons.1 hy with rfl | hy
        · simpa using hx
        · exact h1 y hy
      · simp [updateFirst, hx, h2]

theorem find?_append_eq (p : α → Bool) (l₁ l₂ : List α) :
    (l₁ ++ l₂).find? p =
      match l₁.find? p with
      | some a => some a
      | none => l₂.find? p := by
  induction l₁ with
  | nil => simp
  | cons x xs ih =>
    by_cases hx : p x
    · simp [List.find?_cons_of_pos _ hx]
    · simp [List.find?_cons_of_neg _ hx, ih]

theorem find?_prefix_false {p : α → Bool} {l₁ : List α} (l₂ : List α)
    (h : ∀ x ∈ l₁, p x = false) : (l₁ ++ l₂).find? p = l₂.find? p := by
  rw [find?_append_eq]
  have : l₁.find? p = none := List.find?_eq_none.2 (fun x hx => by simp [h x hx])
  simp [this]

/-- Replacing one element of a pairwise-distinct-id list by an element with
the same product id keeps the ids pairwise distinct. -/
theorem pairwise_id_replace {l₁ l₂ : List CartItem} {a b : CartItem}
    (hab : b.product.id = a.product.id)
    (h : (l₁ ++ a :: l₂).Pairwise (fun x y => x.product.id ≠ y.product.id)) :
    (l₁ ++ b :: l₂).Pairwise (fun x y => x.product.id ≠ y.product.id) := by
  rw [List.pairwise_append] at h ⊢
  obtain ⟨h1, h2, h3⟩ := h
  rw [List.pairwise_cons] at h2 ⊢
  refine ⟨h1, ⟨fun y hy => ?_, h2.2⟩, fun x hx y hy => ?_⟩
  · rw [hab]; exact h2.1 y hy
  · rcases List.mem_cons.1 hy with rfl | hy
    · rw [hab]; exact h3 x hx a (by simp)
    · exact h3 x hx y (List.mem_cons_of_mem _ hy)

theorem find?_some_key {pid : Nat} {l : List CartItem} {a : CartItem}
    (h : l.find? (cartKey pid) = some a) : a.product.id = pid := by
  have := List.find?_some h
  simpa [cartKey] using this

/-! ### Quantity characterisation of `add_item` -/

theorem qty_add_item (c : Cart) (p : Product) (q : Int) (fid pid : Nat) :
    (c.add_item p q fid).qty pid =
      if p.id = pid then some ((c.qty pid).getD 0 + q) else c.qty pid := by
  unfold Cart.add_item
  cases hf : c.items.find? (cartKey p.id) with
  | some a =>
    obtain ⟨l₁, l₂, hl, hpre, hupd⟩ :=
      updateFirst_decomp (fun i => { i with quantity := i.quantity + q }) hf
    have ha : a.product.id = p.id := find?_some_key hf
    by_cases hpid : p.id = pid
    · subst hpid
      have hkey : cartKey p.id a = true := by simp [cartKey, ha]
      have hkey' : cartKey p.id ({ a with quantity := a.quantity + q } : CartItem) = true := by
        simp [cartKey, ha]
      simp only [Cart.qty]
      rw [hupd]
      simp only [eq_self_iff_true, if_true]
      rw [hl]
      rw [find?_prefix_false _ hpre, find?_prefix_false _ hpre,
        List.find?_cons_of_pos _ hkey, List.find?_cons_of_pos _ hkey']
      simp
    · have hkey : ¬ cartKey pid a = true := by
        simp only [cartKey, beq_iff_eq, ha]
        exact hpid
      have hkey' : ¬ cartKey pid ({ a with quantity := a.quantity + q } : CartItem) = true := by
        simp only [cartKey, beq_iff_eq]
        show ¬ a.product.id = pid
        rw [ha]; exact hpid
      simp only [Cart.qty]
      rw [hupd, if_neg hpid, hl]
      rw [find?_append_eq, find?_append_eq,
        List.find?_cons_of_neg _ hkey, List.find?_cons_of_neg _ hkey']
  | none =>
    have hnone : ∀ x ∈ c.items, cartKey p.id x = false := by
      intro x hx
      simpa using List.find?_eq_none.1 hf x hx
    by_cases hpid : p.id = pid
    · subst hpid
      have hkey : cartKey p.id ({ id := fid, product := p, quantity := q } : CartItem) = true := by
        simp [cartKey]
      simp only [Cart.qty, eq_self_iff_true, if_true, hf]
      rw [find?_prefix_false _ hnone, List.find?_cons_of_pos _ hkey]
      simp
    · have hkey : ¬ cartKey pid ({ id := fid, product := p, quantity := q } : CartItem) = true := by
        simp only [cartKey, beq_iff_eq]
        exact hpid
      simp only [Cart.qty, if_neg hpid]
      rw [find?_append_eq, List.find?_cons_of_neg _ hkey]
      cases hf1 : c.items.find? (cartKey pid) <;> simp

/-! ### Invariant preservation -/

theorem inv_updateFirst {c : Cart} (hInv : CartInv c) {p : CartItem → Bool}
    {f : CartItem → CartItem} {a : CartItem}
    (hf : c.items.find? p = some a)
    (hfid : (f a).product.id = a.product.id)
    (hfq : 1 ≤ (f a).quantity) :
    CartInv ⟨updateFirst p f c.items⟩ := by
  obtain ⟨hP, hQ⟩ := hInv
  obtain ⟨l₁, l₂, hl, hpre, hupd⟩ := updateFirst_decomp f hf
  refine ⟨?_, ?_⟩
  · show (updateFirst p f c.items).Pairwise _
    rw [hupd]
    exact pairwise_id_replace hfid (hl ▸ hP)
  · show ∀ i ∈ updateFirst p f c.items, 1 ≤ i.quantity
    rw [hupd]
    intro i hi
    rcases List.mem_append.1 hi with hi | hi
    · exact hQ i (by rw [hl]; exact List.mem_append.2 (Or.inl hi))
    · rcases List.mem_cons.1 hi with rfl | hi
      · exact hfq
      · exact hQ i (by
          rw [hl]
          exact List.mem_append.2 (Or.inr (List.mem_cons_of_mem _ hi)))

theorem inv_add_item {c : Cart} (hInv : CartInv c) (p : Product) {q : Int}
    (hq : 1 ≤ q) (fid : Nat) : CartInv (c.add_item p q fid) := by
  unfold Cart.add_item
  cases hf : c.items.find? (cartKey p.id) with
  | some a =>
    have h1 : 1 ≤ a.quantity := hInv.2 a (List.mem_of_find?_eq_some hf)
    exact inv_updateFirst hInv hf rfl (by show 1 ≤ a.quantity + q; omega)
  | none =>
    obtain ⟨hP, hQ⟩ := hInv
    have hnone : ∀ x ∈ c.items, ¬ x.product.id = p.id := by
      intro x hx
      simpa [cartKey] using List.find?_eq_none.1 hf x hx
    refine ⟨?_, ?_⟩
    · show (c.items ++ [_]).Pairwise _
      rw [List.pairwise_append]
      refine ⟨hP, by simp, ?_⟩
      intro x hx y hy
      rcases List.mem_singleton.1 hy with rfl
      exact hnone x hx
    · intro i hi
      rcases List.mem_append.1 hi with hi | hi
      · exact hQ i hi
      · rcases List.mem_singleton.1 hi with rfl
        exact hq

theorem inv_remove_item {c : Cart} (hInv : CartInv c) (pid : Nat) :
    CartInv (c.remove_item pid) := by
  obtain ⟨hP, hQ⟩ := hInv
  refine ⟨List.Pairwise.sublist (List.filter_sublist _) hP, ?_⟩
  intro i hi
  exact hQ i (List.mem_filter.1 hi).1

theorem inv_update_quantity {c : Cart} (hInv : CartInv c) (pid : Nat) (n : Int) :
    CartInv (c.update_quantity pid n) := by
  unfold Cart.update_quantity
  cases hf : c.items.find? (cartKey pid) with
  | none => exact hInv
  | some a =>
    by_cases hn : n ≤ 0
    · rw [if_pos hn]; exact inv_remove_item hInv pid
    · rw [if_neg hn]
      exact inv_updateFirst hInv hf rfl (by show (1 : Int) ≤ n; omega)

theorem inv_increment_item {c : Cart} (hInv : CartInv c) (pid : Nat) :
    CartInv (c.increment_item pid) := by
  unfold Cart.increment_item
  cases hf : c.items.find? (cartKey pid) with
  | none => exact hInv
  | some a =>
    have h1 : 1 ≤ a.quantity := hInv.2 a (List.mem_of_find?_eq_some hf)
    exact inv_updateFirst hInv hf rfl (by show 1 ≤ a.quantity + 1; omega)

theorem inv_decrement_item {c : Cart} (hInv : CartInv c) (pid : Nat) :
    CartInv (c.decrement_item pid) := by
  unfold Cart.decrement_item
  cases hf : c.items.find? (cartKey pid) with
  | none => exact hInv
  | some a =>
    show CartInv (if 1 < a.quantity then
        (⟨updateFirst (cartKey pid) (fun i => { i with quantity := i.quantity - 1 })
          c.items⟩ : Cart)
      else c.remove_item pid)
    by_cases h1 : 1 < a.quantity
    · rw [if_pos h1]
      exact inv_updateFirst hInv hf rfl (by show 1 ≤ a.quantity - 1; omega)
    · rw [if_neg h1]; exact inv_remove_item hInv pid

/-! ### Behaviour of `decrement_item` on the stored quantity -/

theorem qty_remove_item (c : Cart) (pid : Nat) :
    (c.remove_item pid).qty pid = none := by
  simp only [Cart.remove_item, Cart.qty]
  rw [List.find?_eq_none.2]
  · rfl
  · intro x hx
    have := (List.mem_filter.1 hx).2
    simp [cartKey] at this ⊢
    exact this

theorem qty_decrement_of_one {c : Cart} {pid : Nat}
    (h : c.qty pid = some 1) : (c.decrement_item pid).qty pid = none := by
  unfold Cart.qty at h
  cases hf : c.items.find? (cartKey pid) with
  | none => rw [hf] at h; simp at h
  | some a =>
    rw [hf] at h
    simp at h
    unfold Cart.decrement_item
    rw [hf]
    show (if 1 < a.quantity then
        (⟨updateFirst (cartKey pid) (fun i => { i with quantity := i.quantity - 1 })
          c.items⟩ : Cart)
      else c.remove_item pid).qty pid = none
    rw [if_neg (by omega)]
    exact qty_remove_item c pid

theorem qty_decrement_of_gt {c : Cart} {pid : Nat} {n : Int}
    (h : c.qty pid = some n) (hn : 1 < n) :
    (c.decrement_item pid).qty pid = some (n - 1) := by
  unfold Cart.qty at h
  cases hf : c.items.find? (cartKey pid) with
  | none => rw [hf] at h; simp at h
  | some a =>
    rw [hf] at h
    simp at h
    unfold Cart.decrement_item
    rw [hf]
    show (if 1 < a.quantity then
        (⟨updateFirst (cartKey pid) (fun i => { i with quantity := i.quantity - 1 })
          c.items⟩ : Cart)
      else c.remove_item pid).qty pid = some (n - 1)
    rw [if_pos (by omega)]
    obtain ⟨l₁, l₂, hl, hpre, hupd⟩ :=
      updateFirst_decomp (fun i => { i with quantity := i.quantity - 1 }) hf
    have ha : a.product.id = pid := find?_some_key hf
    have hkey : cartKey pid ({ a with quantity := a.quantity - 1 } : CartItem) = true := by
      simp [cartKey, ha]
    simp only [Cart.qty]
    rw [hupd, find?_prefix_false _ hpre, List.find?_cons_of_pos _ hkey]
    simp [h]

/-- C1: every cart operation (add with quantity at least 1, remove,
update_quantity, increment, decrement) preserves the invariant "at most one
line per product id, every quantity at least 1"; decrement on a line of
quantity 1 removes the line, and decrement on a line of quantity above 1
decreases that quantity by exactly 1. -/
theorem C1_cart_ops_preserve_invariant (c : Cart) (p : Product) (q : Int)
    (fid pid : Nat) (hInv : CartInv c) (hq : 1 ≤ q) :
    CartInv (c.add_item p q fid) ∧
    CartInv (c.remove_item pid) ∧
    (∀ n : Int, CartInv (c.update_quantity pid n)) ∧
    CartInv (c.increment_item pid) ∧
    CartInv (c.decrement_item pid) ∧
    (c.qty pid = some 1 → (c.decrement_item pid).qty pid = none) ∧
    (∀ n : Int, c.qty pid = some n → 1 < n →
      (c.decrement_item pid).qty pid = some (n - 1)) :=
  ⟨inv_add_item hInv p hq fid,
   inv_remove_item hInv pid,
   fun n => inv_update_quantity hInv pid n,
   inv_increment_item hInv pid,
   inv_decrement_item hInv pid,
   fun h => qty_decrement_of_one h,
   fun _ h hn => qty_decrement_of_gt h hn⟩

def sampleProduct : Product :=
  { id := 1, name := "Ethiopia", slug := "ethiopia", description := "beans",
    price_cents := 1800, category := ProductCategory.Featured,
    roast_level := some RoastLevel.Light, weight_oz := 12, bean_type := "arabica",
    product_type := ProductType.OneTime, highlight_color := "green",
    region_id := "global", in_stock := true }

def sampleCart : Cart :=
  ⟨[{ id := 10, product := sampleProduct, quantity := 2 }]⟩

theorem sampleCart_inv : CartInv sampleCart := by
  refine ⟨?_, ?_⟩
  · simp [sampleCart]
  · intro i hi
    simp only [sampleCart, List.mem_singleton] at hi
    subst hi
    decide

theorem C1_witness :
    CartInv sampleCart ∧ (1 : Int) ≤ 3 ∧
    CartInv (sampleCart.add_item sampleProduct 3 11) :=
  ⟨sampleCart_inv, by decide,
    (C1_cart_ops_preserve_invariant sampleCart sampleProduct 3 11 1
      sampleCart_inv (by decide)).1⟩

/-! ### C2: folding a sequence of adds -/

/-- One `add(product, qty)` call; `freshId` is the `Uuid` a new line gets. -/
structure AddOp where
  product : Product
  quantity : Int
  freshId : Nat

/-- Run a sequence of `Cart::add_item` calls on the empty cart. -/
def runAdds (adds : List AddOp) : Cart :=
  adds.foldl (fun c a => c.add_item a.product a.quantity a.freshId) Cart.new

/-- The sum of all quantities added for one product id. -/
def sumForPid (adds : List AddOp) (pid : Nat) : Int :=
  ((adds.filter (fun a => a.product.id == pid)).map AddOp.quantity).sum

theorem sumForPid_cons (a : AddOp) (as : List AddOp) (pid : Nat) :
    sumForPid (a :: as) pid =
      (if a.product.id = pid then a.quantity else 0) + sumForPid as pid := by
  by_cases h : a.product.id = pid <;>
    simp [sumForPid, List.filter_cons, h]

theorem sumForPid_eq_zero {as : List AddOp} {pid : Nat}
    (h : as.any (fun a => a.product.id == pid) = false) :
    sumForPid as pid = 0 := by
  have hfil : as.filter (fun a => a.product.id == pid) = [] := by
    rw [List.filter_eq_nil_iff]
    intro a ha
    intro hcontra
    rw [List.any_eq_false] at h
    exact h a ha hcontra
  simp [sumForPid, hfil]

theorem foldl_add_qty (adds : List AddOp) :
    ∀ c : Cart, CartInv c → (∀ a ∈ adds, 1 ≤ a.quantity) →
      CartInv (adds.foldl (fun c a => c.add_item a.product a.quantity a.freshId) c) ∧
      ∀ pid, (adds.foldl (fun c a => c.add_item a.product a.quantity a.freshId) c).qty pid =
        if adds.any (fun a => a.product.id == pid)
        then some ((c.qty pid).getD 0 + sumForPid adds pid)
        else c.qty pid := by
  induction adds with
  | nil =>
    intro c hc _
    exact ⟨hc, fun pid => by simp⟩
  | cons a as ih =>
    intro c hc hq
    have hq1 : 1 ≤ a.quantity := hq a (by simp)
    have hc' : CartInv (c.add_item a.product a.quantity a.freshId) :=
      inv_add_item hc _ hq1 _
    obtain ⟨ih1, ih2⟩ := ih _ hc' (fun b hb => hq b (List.mem_cons_of_mem _ hb))
    refine ⟨ih1, fun pid => ?_⟩
    rw [List.foldl_cons, ih2 pid, qty_add_item, sumForPid_cons, List.any_cons]
    by_cases h1 : a.product.id = pid <;>
      by_cases h2 : (as.any fun b => b.product.id == pid) = true
    · simp [h1, h2, add_assoc]
    · rw [Bool.not_eq_true] at h2
      simp [h1, h2, sumForPid_eq_zero h2]
    · simp [h1, h2]
    · rw [Bool.not_eq_true] at h2
      simp [h1, h2]

theorem cartNew_inv : CartInv Cart.new := by
  refine ⟨?_, ?_⟩ <;> simp [Cart.new]

/-- C2: for every sequence of adds with quantities at least 1, starting from
the empty cart, the cart holds exactly one line per distinct added product id
and that line's quantity is the sum of all quantities added for that id. -/
theorem C2_adds_merge_by_product (adds : List AddOp)
    (h : ∀ a ∈ adds, 1 ≤ a.quantity) :
    CartInv (runAdds adds) ∧
    ∀ pid, (runAdds adds).qty pid =
      if adds.any (fun a => a.product.id == pid)
      then some (sumForPid adds pid) else none := by
  obtain ⟨h1, h2⟩ := foldl_add_qty adds Cart.new cartNew_inv h
  refine ⟨h1, fun pid => ?_⟩
  rw [runAdds, h2 pid]
  simp [Cart.qty, Cart.new]

def sampleAdds : List AddOp :=
  [⟨sampleProduct, 2, 20⟩, ⟨sampleProduct, 3, 21⟩]

theorem C2_witness :
    (∀ a ∈ sampleAdds, 1 ≤ a.quantity) ∧
    (runAdds sampleAdds).qty 1 = some 5 := by
  have h : ∀ a ∈ sampleAdds, 1 ≤ a.quantity := by decide
  refine ⟨h, ?_⟩
  rw [(C2_adds_merge_by_product sampleAdds h).2 1]
  decide

/-! ### C9: subtotal is the exact sum of price times quantity -/

theorem subtotal_list (items : List CartItem) :
    (items.map CartItem.total_cents).sum =
      ∑ i : Fin items.length,
        (items.get i).product.price_cents * (items.get i).quantity := by
  induction items with
  | nil => simp
  | cons x xs ih =>
    calc (List.map CartItem.total_cents (x :: xs)).sum
        = x.total_cents + (List.map CartItem.total_cents xs).sum := by
          rw [List.map_cons, List.sum_cons]
      _ = x.total_cents +
            ∑ i : Fin xs.length, (xs.get i).product.price_cents * (xs.get i).quantity := by
          rw [ih]
      _ = ∑ i : Fin (xs.length + 1),
            (((x :: xs).get i).product.price_cents * ((x :: xs).get i).quantity) := by
          rw [Fin.sum_univ_succ]
          simp [CartItem.total_cents]
      _ = ∑ i : Fin (x :: xs).length,
            (((x :: xs).get i).product.price_cents * ((x :: xs).get i).quantity) := rfl

/-- C9: `subtotal_cents` equals the exact integer sum over all cart lines of
unit price times quantity. -/
theorem C9_subtotal_exact (c : Cart) :
    c.subtotal_cents =
      ∑ i : Fin c.items.length,
        (c.items.get i).product.price_cents * (c.items.get i).quantity :=
  subtotal_list c.items

/-! ## Region (src/models/region.rs) -/

structure Region where
  id : String
  name : String
  code : String
  flag : String
  currency : String
  free_shipping_threshold : Int
deriving DecidableEq, Repr

/-- `Region::default()`. -/
def Region.default : Region :=
  { id := "global", name := "Global", code := "Global", flag := "🌎",
    currency := "USD", free_shipping_threshold := 40 }

/-! ## Cache (src/db/cache.rs).  `Instant` becomes an explicit `Nat` clock
passed to `get` and `set`; the TTL is kept in the same time unit. -/

structure CacheEntry (T : Type) where
  data : T
  expires_at : Nat

structure Cache (T : Type) where
  entries : String → Option (CacheEntry T)
  ttl : Nat

/-- `Cache::new(ttl_secs)`. -/
def Cache.new {T : Type} (ttl_secs : Nat) : Cache T :=
  { entries := fun _ => none, ttl := ttl_secs }

/-- `Cache::get`, with `now` standing for `Instant::now()`. -/
def Cache.get {T : Type} (c : Cache T) (now : Nat) (key : String) : Option T :=
  (c.entries key).bind (fun entry =>
    if now < entry.expires_at then some entry.data else none)

/-- `Cache::set`: stores an entry expiring at `now + ttl`. -/
def Cache.set {T : Type} (c : Cache T) (now : Nat) (key : String) (data : T) : Cache T :=
  { c with entries := fun k =>
      if k = key then some { data := data, expires_at := now + c.ttl } else c.entries k }

structure DataCache where
  products : Cache (List Product)
  regions : Cache (List Region)

/-- `DataCache::new`: products TTL 300 s, regions TTL 1800 s. -/
def DataCache.new : DataCache :=
  { products := Cache.new 300, regions := Cache.new 1800 }

/-- `DataCache::get_products`. -/
def DataCache.get_products (dc : DataCache) (now : Nat) (region_id : String) :
    Option (List Product) :=
  dc.products.get now ("products:" ++ region_id)

/-- `DataCache::set_products`. -/
def DataCache.set_products (dc : DataCache) (now : Nat) (region_id : String)
    (products : List Product) : DataCache :=
  { dc with products := dc.products.set now ("products:" ++ region_id) products }

/-- `DataCache::get_regions`. -/
def DataCache.get_regions (dc : DataCache) (now : Nat) : Option (List Region) :=
  dc.regions.get now "regions"

/-- `DataCache::set_regions`. -/
def DataCache.set_regions (dc : DataCache) (now : Nat) (regions : List Region) : DataCache :=
  { dc with regions := dc.regions.set now "regions" regions }

/-- C7: a `get` at the instant of a `set` (no intervening set) returns the
stored value; once the namespace's fixed TTL has elapsed the same `get`
returns `none` — a miss, not an error.  The two application namespaces carry
the fixed TTLs 300 s (products) and 1800 s (regions). -/
theorem C7_cache_ttl {T : Type} (c : Cache T) (k : String) (v : T) (t0 t : Nat)
    (httl : 0 < c.ttl) :
    ((c.set t0 k v).get t0 k = some v) ∧
    (t0 + c.ttl ≤ t → (c.set t0 k v).get t k = none) ∧
    DataCache.new.products.ttl = 300 ∧ DataCache.new.regions.ttl = 1800 := by
  refine ⟨?_, ?_, rfl, rfl⟩
  · show ((if k = k then some { data := v, expires_at := t0 + c.ttl } else c.entries k).bind
      fun entry => if t0 < entry.expires_at then some entry.data else none) = some v
    rw [if_pos rfl]
    show (if t0 < t0 + c.ttl then some v else none) = some v
    rw [if_pos (by omega)]
  · intro ht
    show ((if k = k then some { data := v, expires_at := t0 + c.ttl } else c.entries k).bind
      fun entry => if t < entry.expires_at then some entry.data else none) = none
    rw [if_pos rfl]
    show (if t < t0 + c.ttl then some v else none) = none
    rw [if_neg (by omega)]

theorem C7_witness :
    0 < (Cache.new 300 : Cache Nat).ttl ∧
    ((Cache.new 300 : Cache Nat).set 10 "k" 42).get 10 "k" = some 42 ∧
    ((Cache.new 300 : Cache Nat).set 10 "k" 42).get 310 "k" = none :=
  have h : 0 < (Cache.new 300 : Cache Nat).ttl := by decide
  ⟨h, (C7_cache_ttl (Cache.new 300) "k" 42 10 310 h).1,
      (C7_cache_ttl (Cache.new 300) "k" 42 10 310 h).2.1 (by decide)⟩

/-! ## User-side models (src/models/user.rs) -/

structure ShippingAddress where
  name : String
  street_1 : String
  street_2 : String
  city : String
  state : String
  country : String
  phone : String
  postal_code : String
deriving DecidableEq, Repr

/-- `ShippingAddress::default()`: all fields empty. -/
def ShippingAddress.default : ShippingAddress :=
  { name := "", street_1 := "", street_2 := "", city := "", state := "",
    country := "", phone := "", postal_code := "" }

/-- `ShippingAddress::is_complete`. -/
def ShippingAddress.is_complete (a : ShippingAddress) : Bool :=
  !a.name.isEmpty && !a.street_1.isEmpty && !a.city.isEmpty &&
    !a.country.isEmpty && !a.postal_code.isEmpty

structure SavedAddress where
  id : Option Nat
  user_fingerprint : String
  name : String
  street_1 : String
  street_2 : String
  city : String
  state : String
  country : String
  phone : String
  postal_code : String
  created_at : Option Nat
deriving DecidableEq, Repr

/-- `SavedAddress::to_shipping`. -/
def SavedAddress.to_shipping (a : SavedAddress) : ShippingAddress :=
  { name := a.name, street_1 := a.street_1, street_2 := a.street_2,
    city := a.city, state := a.state, country := a.country,
    phone := a.phone, postal_code := a.postal_code }

/-- `SavedAddress::from_shipping`. -/
def SavedAddress.from_shipping (address : ShippingAddress)
    (user_fingerprint : String) : SavedAddress :=
  { id := none, user_fingerprint := user_fingerprint, name := address.name,
    street_1 := address.street_1, street_2 := address.street_2,
    city := address.city, state := address.state, country := address.country,
    phone := address.phone, postal_code := address.postal_code,
    created_at := none }

structure PaymentInfo where
  name : String
  email : String
  card_number : String
  expiry_month : String
  expiry_year : String
  cvv : String
deriving DecidableEq, Repr

/-- `PaymentInfo::default()`: all fields empty. -/
def PaymentInfo.default : PaymentInfo :=
  { name := "", email := "", card_number := "", expiry_month := "",
    expiry_year := "", cvv := "" }

/-- `PaymentInfo::is_complete`. -/
def PaymentInfo.is_complete (p : PaymentInfo) : Bool :=
  !p.name.isEmpty && !p.email.isEmpty && !p.card_number.isEmpty &&
    !p.expiry_month.isEmpty && !p.expiry_year.isEmpty && !p.cvv.isEmpty

/-! ## Application state (src/app.rs) -/

inductive Tab
  | Home | Shop | Account | Cart
deriving DecidableEq, Repr

inductive AccountSection
  | OrderHistory | Subscriptions | Faq | About
deriving DecidableEq, Repr

inductive CheckoutStep
  | Cart | Shipping | Payment | Confirmation
deriving DecidableEq, Repr

inductive ShippingMode
  | SelectAddress | AddNewAddress
deriving DecidableEq, Repr

inductive PaymentMethod
  | Ssh | Browser
deriving DecidableEq, Repr

inductive InputField
  | None
  | Name | Street1 | Street2 | City
  | State | Country | Phone | PostalCode
  | PaymentName | PaymentEmail | CardNumber | ExpiryMonth | ExpiryYear | Cvv
deriving DecidableEq, Repr

/-- `InputField::shipping_fields`. -/
def InputField.shipping_fields : List InputField :=
  [.Name, .Street1, .Street2, .City, .State, .Country, .Phone, .PostalCode]

/-- `InputField::payment_fields`. -/
def InputField.payment_fields : List InputField :=
  [.PaymentName, .PaymentEmail, .CardNumber, .ExpiryMonth, .ExpiryYear, .Cvv]

/-- `InputField::next_shipping` (`fields[0]` of the non-empty literal list is
its head; the `headD` default is never reached). -/
def InputField.next_shipping (f : InputField) : InputField :=
  let fields := InputField.shipping_fields
  let current_idx := (fields.findIdx? (fun g => g == f)).getD 0
  (fields.get? (current_idx + 1)).getD (fields.headD InputField.None)

/-- `InputField::next_payment`. -/
def InputField.next_payment (f : InputField) : InputField :=
  let fields := InputField.payment_fields
  let current_idx := (fields.findIdx? (fun g => g == f)).getD 0
  (fields.get? (current_idx + 1)).getD (fields.headD InputField.None)

/-- The session fields of `App` that the checkout workflow engine reads or
writes.  The `Instant` splash clock, loading flag, the database client, the
cache handle and the SSH identity are runtime handles or plumbing outside
the embedded transitions and carry no workflow data. -/
structure AppState where
  running : Bool
  current_tab : Tab
  region : Region
  regions : List Region
  products : List Product
  cart : Cart
  selected_product_index : Nat
  product_quantity : Int
  account_section : AccountSection
  checkout_step : CheckoutStep
  cart_item_index : Nat
  payment_option_index : Nat
  payment_method : Option PaymentMethod
  shipping_address : ShippingAddress
  saved_addresses : List SavedAddress
  shipping_mode : ShippingMode
  address_select_index : Nat
  payment_info : PaymentInfo
  active_input : InputField
  notification : Option String
deriving DecidableEq, Repr

/-- `App::handle_input_char`. -/
def handle_input_char (c : Char) (s : AppState) : AppState :=
  let s := { s with notification := none }
  match s.active_input with
  | InputField.None => s
  | InputField.Name =>
      { s with shipping_address :=
          { s.shipping_address with name := s.shipping_address.name.push c } }
  | InputField.Street1 =>
      { s with shipping_address :=
          { s.shipping_address with street_1 := s.shipping_address.street_1.push c } }
  | InputField.Street2 =>
      { s with shipping_address :=
          { s.shipping_address with street_2 := s.shipping_address.street_2.push c } }
  | InputField.City =>
      { s with shipping_address :=
          { s.shipping_address with city := s.shipping_address.city.push c } }
  | InputField.State =>
      { s with shipping_address :=
          { s.shipping_address with state := s.shipping_address.state.push c } }
  | InputField.Country =>
      { s with shipping_address :=
          { s.shipping_address with country := s.shipping_address.country.push c } }
  | InputField.Phone =>
      { s with shipping_address :=
          { s.shipping_address with phone := s.shipping_address.phone.push c } }
  | InputField.PostalCode =>
      { s with shipping_address :=
          { s.shipping_address with postal_code := s.shipping_address.postal_code.push c } }
  | InputField.PaymentName =>
      { s with payment_info := { s.payment_info with name := s.payment_info.name.push c } }
  | InputField.PaymentEmail =>
      { s with payment_info := { s.payment_info with email := s.payment_info.email.push c } }
  | InputField.CardNumber =>
      if c.isDigit ∧ s.payment_info.card_number.length < 16 then
        { s with payment_info :=
            { s.payment_info with card_number := s.payment_info.card_number.push c } }
      else s
  | InputField.ExpiryMonth =>
      if c.isDigit ∧ s.payment_info.expiry_month.length < 2 then
        { s with payment_info :=
            { s.payment_info with expiry_month := s.payment_info.expiry_month.push c } }
      else s
  | InputField.ExpiryYear =>
      if c.isDigit ∧ s.payment_info.expiry_year.length < 4 then
        { s with payment_info :=
            { s.payment_info with expiry_year := s.payment_info.expiry_year.push c } }
      else s
  | InputField.Cvv =>
      if c.isDigit ∧ s.payment_info.cvv.length < 3 then
        { s with payment_info := { s.payment_info with cvv := s.payment_info.cvv.push c } }
      else s

/-- `App::handle_input_backspace`.  Rust `String::pop` removes the last
character; `dropRight 1` does the same and is a no-op on the empty string. -/
def handle_input_backspace (s : AppState) : AppState :=
  match s.active_input with
  | InputField.None => s
  | InputField.Name =>
      { s with shipping_address :=
          { s.shipping_address with name := s.shipping_address.name.dropRight 1 } }
  | InputField.Street1 =>
      { s with shipping_address :=
          { s.shipping_address with street_1 := s.shipping_address.street_1.dropRight 1 } }
  | InputField.Street2 =>
      { s with shipping_address :=
          { s.shipping_address with street_2 := s.shipping_address.street_2.dropRight 1 } }
  | InputField.City =>
      { s with shipping_address :=
          { s.shipping_address with city := s.shipping_address.city.dropRight 1 } }
  | InputField.State =>
      { s with shipping_address :=
          { s.shipping_address with state := s.shipping_address.state.dropRight 1 } }
  | InputField.Country =>
      { s with shipping_address :=
          { s.shipping_address with country := s.shipping_address.country.dropRight 1 } }
  | InputField.Phone =>
      { s with shipping_address :=
          { s.shipping_address with phone := s.shipping_address.phone.dropRight 1 } }
  | InputField.PostalCode =>
      { s with shipping_address :=
          { s.shipping_address with postal_code := s.shipping_address.postal_code.dropRight 1 } }
  | InputField.PaymentName =>
      { s with payment_info := { s.payment_info with name := s.payment_info.name.dropRight 1 } }
  | InputField.PaymentEmail =>
      { s with payment_info := { s.payment_info with email := s.payment_info.email.dropRight 1 } }
  | InputField.CardNumber =>
      { s with payment_info :=
          { s.payment_info with card_number := s.payment_info.card_number.dropRight 1 } }
  | InputField.ExpiryMonth =>
      { s with payment_info :=
          { s.payment_info with expiry_month := s.payment_info.expiry_month.dropRight 1 } }
  | InputField.ExpiryYear =>
      { s with payment_info :=
          { s.payment_info with expiry_year := s.payment_info.expiry_year.dropRight 1 } }
  | InputField.Cvv =>
      { s with payment_info := { s.payment_info with cvv := s.payment_info.cvv.dropRight 1 } }

/-- `App::next_input_field`. -/
def next_input_field (s : AppState) : AppState :=
  let s := { s with notification := none }
  match s.checkout_step with
  | CheckoutStep.Shipping =>
      { s with active_input := s.active_input.next_shipping }
  | CheckoutStep.Payment =>
      if s.payment_method = some PaymentMethod.Ssh then
        { s with active_input := s.active_input.next_payment }
      else s
  | _ => s

/-- `App::get_empty_shipping_field`. -/
def get_empty_shipping_field (s : AppState) : Option String :=
  if s.shipping_address.name.isEmpty then some "name"
  else if s.shipping_address.street_1.isEmpty then some "street"
  else if s.shipping_address.city.isEmpty then some "city"
  else if s.shipping_address.country.isEmpty then some "country"
  else if s.shipping_address.phone.isEmpty then some "phone"
  else if s.shipping_address.postal_code.isEmpty then some "postal code"
  else none

/-- `App::get_empty_payment_field`. -/
def get_empty_payment_field (s : AppState) : Option String :=
  if s.payment_info.name.isEmpty then some "name"
  else if s.payment_info.email.isEmpty then some "email"
  else if s.payment_info.card_number.isEmpty then some "card number"
  else if s.payment_info.expiry_month.isEmpty then some "expiry month"
  else if s.payment_info.expiry_year.isEmpty then some "expiry year"
  else if s.payment_info.cvv.isEmpty then some "cvv"
  else none

/-- `App::save_address_to_db`.  `dbReply` is the backend's answer to
`db.save_address`: `some created` models `Ok(created)`, `none` models `Err`
(which is swallowed).  `insert(0, _)` followed by `truncate(3)` is
`(created :: l).take 3`. -/
def save_address_to_db (dbReply : Option SavedAddress) (s : AppState) : AppState :=
  if !s.shipping_address.is_complete || 3 ≤ s.saved_addresses.length then s
  else if s.saved_addresses.any (fun a =>
      a.street_1 == s.shipping_address.street_1 &&
      a.city == s.shipping_address.city &&
      a.postal_code == s.shipping_address.postal_code) then s
  else
    match dbReply with
    | some created =>
        { s with saved_addresses := (created :: s.saved_addresses).take 3 }
    | none => s

/-- `App::next_checkout_step`; `dbReply` feeds `save_address_to_db` on the
one path that calls the backend. -/
def next_checkout_step (dbReply : Option SavedAddress) (s : AppState) : AppState :=
  let s := { s with notification := none }
  match s.checkout_step with
  | CheckoutStep.Cart =>
      if s.cart.is_empty = false then
        { s with shipping_mode := ShippingMode.SelectAddress,
                 address_select_index := 0,
                 active_input := InputField.None,
                 checkout_step := CheckoutStep.Shipping }
      else s
  | CheckoutStep.Shipping =>
      match s.shipping_mode with
      | ShippingMode.SelectAddress => s
      | ShippingMode.AddNewAddress =>
          match get_empty_shipping_field s with
          | some f => { s with notification := some (f ++ " can\x27t be empty") }
          | none =>
              let s := save_address_to_db dbReply s
              { s with active_input := InputField.None,
                       checkout_step := CheckoutStep.Payment }
  | CheckoutStep.Payment =>
      if s.payment_method = some PaymentMethod.Ssh then
        match get_empty_payment_field s with
        | some f => { s with notification := some (f ++ " can\x27t be empty") }
        | none => { s with checkout_step := CheckoutStep.Confirmation }
      else if s.payment_method = some PaymentMethod.Browser then
        { s with checkout_step := CheckoutStep.Confirmation }
      else { s with checkout_step := CheckoutStep.Payment }
  | CheckoutStep.Confirmation =>
      { s with cart := s.cart.clear,
               current_tab := Tab.Home,
               checkout_step := CheckoutStep.Cart }

/-- `App::select_address_option`. -/
def select_address_option (s : AppState) : AppState :=
  if h : s.address_select_index < s.saved_addresses.length then
    let chosen := s.saved_addresses.get ⟨s.address_select_index, h⟩
    { s with shipping_address := chosen.to_shipping,
             active_input := InputField.None,
             checkout_step := CheckoutStep.Payment }
  else
    { s with shipping_mode := ShippingMode.AddNewAddress,
             shipping_address := ShippingAddress.default,
             active_input := InputField.Name }

/-- The current text of each input target (`InputField.None` carries no text
and reads as the empty string). -/
def fieldValue (s : AppState) : InputField → String
  | InputField.None => ""
  | InputField.Name => s.shipping_address.name
  | InputField.Street1 => s.shipping_address.street_1
  | InputField.Street2 => s.shipping_address.street_2
  | InputField.City => s.shipping_address.city
  | InputField.State => s.shipping_address.state
  | InputField.Country => s.shipping_address.country
  | InputField.Phone => s.shipping_address.phone
  | InputField.PostalCode => s.shipping_address.postal_code
  | InputField.PaymentName => s.payment_info.name
  | InputField.PaymentEmail => s.payment_info.email
  | InputField.CardNumber => s.payment_info.card_number
  | InputField.ExpiryMonth => s.payment_info.expiry_month
  | InputField.ExpiryYear => s.payment_info.expiry_year
  | InputField.Cvv => s.payment_info.cvv

/-! ## Checkout state machine claims -/

/-- The claim's validation order, stated abstractly: scan labelled field
values in the given order and report the label of the first empty one. -/
def specFirstEmpty (fields : List (String × String)) : Option String :=
  (fields.find? (fun p => p.2.isEmpty)).map Prod.fst

/-- Blocking case of the `Shipping`/`AddNewAddress` advance: the state is
unchanged except for the validation notification. -/
theorem next_step_addnew_block (dbReply : Option SavedAddress) (s : AppState)
    (f : String)
    (hstep : s.checkout_step = CheckoutStep.Shipping)
    (hmode : s.shipping_mode = ShippingMode.AddNewAddress)
    (hf : get_empty_shipping_field s = some f) :
    next_checkout_step dbReply s =
      { s with notification := some (f ++ " can\x27t be empty") } := by
  obtain ⟨run, tab, reg, regs, prods, cart, spi, pq, acc, step, cii, poi, pm, sa,
    sas, sm, asi, pinfo, ai, notif⟩ := s
  replace hstep : step = CheckoutStep.Shipping := hstep
  replace hmode : sm = ShippingMode.AddNewAddress := hmode
  subst hstep; subst hmode
  simp only [next_checkout_step, get_empty_shipping_field] at hf ⊢
  rw [hf]

/-- Successful case of the `Shipping`/`AddNewAddress` advance. -/
theorem next_step_addnew_success (dbReply : Option SavedAddress) (s : AppState)
    (hstep : s.checkout_step = CheckoutStep.Shipping)
    (hmode : s.shipping_mode = ShippingMode.AddNewAddress)
    (hf : get_empty_shipping_field s = none) :
    (next_checkout_step dbReply s).active_input = InputField.None ∧
    (next_checkout_step dbReply s).checkout_step = CheckoutStep.Payment := by
  obtain ⟨run, tab, reg, regs, prods, cart, spi, pq, acc, step, cii, poi, pm, sa,
    sas, sm, asi, pinfo, ai, notif⟩ := s
  replace hstep : step = CheckoutStep.Shipping := hstep
  replace hmode : sm = ShippingMode.AddNewAddress := hmode
  subst hstep; subst hmode
  simp only [next_checkout_step, get_empty_shipping_field] at hf ⊢
  rw [hf]
  exact ⟨rfl, rfl⟩

/-- C3: in `Shipping`/`AddNewAddress`, advancing checks the working address
fields in the fixed order name, street1, city, country, phone, postal code;
the first empty one blocks the transition, leaving everything except the
notification unchanged, and the notification reads "<field> can't be empty"
(with street1 empty but name filled it is exactly "street can't be empty");
with all six non-empty the active field is cleared and the step becomes
`Payment`. -/
theorem C3_shipping_validation_order (dbReply : Option SavedAddress) (s : AppState)
    (hstep : s.checkout_step = CheckoutStep.Shipping)
    (hmode : s.shipping_mode = ShippingMode.AddNewAddress) :
    (get_empty_shipping_field s = specFirstEmpty
      [("name", s.shipping_address.name), ("street", s.shipping_address.street_1),
       ("city", s.shipping_address.city), ("country", s.shipping_address.country),
       ("phone", s.shipping_address.phone),
       ("postal code", s.shipping_address.postal_code)]) ∧
    (∀ f, get_empty_shipping_field s = some f →
      next_checkout_step dbReply s =
        { s with notification := some (f ++ " can\x27t be empty") }) ∧
    (s.shipping_address.name.isEmpty = false → s.shipping_address.street_1.isEmpty = true →
      (next_checkout_step dbReply s).notification = some "street can\x27t be empty" ∧
      (next_checkout_step dbReply s).checkout_step = CheckoutStep.Shipping ∧
      (next_checkout_step dbReply s).shipping_mode = ShippingMode.AddNewAddress) ∧
    (get_empty_shipping_field s = none →
      (next_checkout_step dbReply s).active_input = InputField.None ∧
      (next_checkout_step dbReply s).checkout_step = CheckoutStep.Payment) := by
  refine ⟨?_, fun f hf => next_step_addnew_block dbReply s f hstep hmode hf, ?_,
    fun hf => next_step_addnew_success dbReply s hstep hmode hf⟩
  · by_cases h1 : s.shipping_address.name.isEmpty <;>
    by_cases h2 : s.shipping_address.street_1.isEmpty <;>
    by_cases h3 : s.shipping_address.city.isEmpty <;>
    by_cases h4 : s.shipping_address.country.isEmpty <;>
    by_cases h5 : s.shipping_address.phone.isEmpty <;>
    by_cases h6 : s.shipping_address.postal_code.isEmpty <;>
      simp [get_empty_shipping_field, specFirstEmpty, List.find?_cons,
        h1, h2, h3, h4, h5, h6]
  · intro hn hs
    have hf : get_empty_shipping_field s = some "street" := by
      simp [get_empty_shipping_field, hn, hs]
    rw [next_step_addnew_block dbReply s _ hstep hmode hf]
    exact ⟨rfl, hstep, hmode⟩

def exAddNew : AppState :=
  { running := true, current_tab := Tab.Cart, region := Region.default,
    regions := [], products := [sampleProduct], cart := sampleCart,
    selected_product_index := 0, product_quantity := 1,
    account_section := AccountSection.OrderHistory,
    checkout_step := CheckoutStep.Shipping, cart_item_index := 0,
    payment_option_index := 0, payment_method := none,
    shipping_address := { ShippingAddress.default with name := "Jane" },
    saved_addresses := [],
    shipping_mode := ShippingMode.AddNewAddress, address_select_index := 0,
    payment_info := PaymentInfo.default, active_input := InputField.Street1,
    notification := none }

theorem C3_witness :
    exAddNew.checkout_step = CheckoutStep.Shipping ∧
    exAddNew.shipping_mode = ShippingMode.AddNewAddress ∧
    exAddNew.shipping_address.name.isEmpty = false ∧
    exAddNew.shipping_address.street_1.isEmpty = true ∧
    (next_checkout_step none exAddNew).notification = some "street can\x27t be empty" :=
  ⟨rfl, rfl, rfl, rfl,
    ((C3_shipping_validation_order none exAddNew rfl rfl).2.2.1 rfl rfl).1⟩

/-- C4: from step `Cart`, advancing reaches `Shipping` exactly when the cart
is non-empty, and then resets the shipping sub-mode to `SelectAddress`, the
address selection index to 0 and clears the active field; with an empty cart
the step stays `Cart`. -/
theorem C4_cart_advance_gate (dbReply : Option SavedAddress) (s : AppState)
    (hstep : s.checkout_step = CheckoutStep.Cart) :
    (s.cart.is_empty = false →
      next_checkout_step dbReply s =
        { s with notification := none,
                 shipping_mode := ShippingMode.SelectAddress,
                 address_select_index := 0,
                 active_input := InputField.None,
                 checkout_step := CheckoutStep.Shipping }) ∧
    (s.cart.is_empty = true →
      (next_checkout_step dbReply s).checkout_step = CheckoutStep.Cart) ∧
    ((next_checkout_step dbReply s).checkout_step = CheckoutStep.Shipping ↔
      s.cart.is_empty = false) := by
  cases h : s.cart.is_empty <;>
    simp [next_checkout_step, hstep, h]

def exBase : AppState :=
  { running := true, current_tab := Tab.Cart, region := Region.default,
    regions := [], products := [sampleProduct], cart := sampleCart,
    selected_product_index := 0, product_quantity := 1,
    account_section := AccountSection.OrderHistory,
    checkout_step := CheckoutStep.Cart, cart_item_index := 0,
    payment_option_index := 0, payment_method := none,
    shipping_address := ShippingAddress.default, saved_addresses := [],
    shipping_mode := ShippingMode.SelectAddress, address_select_index := 0,
    payment_info := PaymentInfo.default, active_input := InputField.None,
    notification := none }

theorem C4_witness :
    exBase.checkout_step = CheckoutStep.Cart ∧ exBase.cart.is_empty = false ∧
    (next_checkout_step none exBase).checkout_step = CheckoutStep.Shipping := by
  refine ⟨rfl, rfl, ?_⟩
  rw [(C4_cart_advance_gate none exBase rfl).1 rfl]

/-- C5: in `Shipping`/`SelectAddress`, the explicit select action with the
highlighted index strictly below the saved-address count copies that saved
address into the working address, clears the active field and jumps the step
to `Payment`; with the index equal to the count (the "add new" sentinel) it
switches the sub-mode to `AddNewAddress`, resets the working address to
all-empty fields and sets the active field to name. -/
theorem C5_select_address_option_spec (s : AppState)
    (hstep : s.checkout_step = CheckoutStep.Shipping)
    (hmode : s.shipping_mode = ShippingMode.SelectAddress) :
    (∀ h : s.address_select_index < s.saved_addresses.length,
      select_address_option s =
        { s with
            shipping_address := (s.saved_addresses.get
              ⟨s.address_select_index, h⟩).to_shipping,
            active_input := InputField.None,
            checkout_step := CheckoutStep.Payment }) ∧
    (s.address_select_index = s.saved_addresses.length →
      select_address_option s =
        { s with
            shipping_mode := ShippingMode.AddNewAddress,
            shipping_address :=
              { name := "", street_1 := "", street_2 := "", city := "",
                state := "", country := "", phone := "", postal_code := "" },
            active_input := InputField.Name }) := by
  constructor
  · intro h
    simp only [select_address_option]
    rw [dif_pos h]
  · intro h
    simp only [select_address_option]
    rw [dif_neg (by omega)]
    rfl

def exSavedAddress : SavedAddress :=
  { id := some 7, user_fingerprint := "fp", name := "Jane",
    street_1 := "1 Main St", street_2 := "", city := "Springfield",
    state := "", country := "USA", phone := "555", postal_code := "00000",
    created_at := some 0 }

def exSelect : AppState :=
  { exBase with checkout_step := CheckoutStep.Shipping,
                shipping_mode := ShippingMode.SelectAddress,
                saved_addresses := [exSavedAddress],
                address_select_index := 0 }

theorem C5_witness :
    exSelect.checkout_step = CheckoutStep.Shipping ∧
    exSelect.shipping_mode = ShippingMode.SelectAddress ∧
    exSelect.address_select_index < exSelect.saved_addresses.length ∧
    (select_address_option exSelect).shipping_address.name = "Jane" ∧
    (select_address_option exSelect).shipping_address.street_1 = "1 Main St" ∧
    (select_address_option exSelect).checkout_step = CheckoutStep.Payment := by
  have h0 : exSelect.address_select_index < exSelect.saved_addresses.length := by
    show 0 < 1
    omega
  have h := (C5_select_address_option_spec exSelect rfl rfl).1 h0
  rw [h]
  exact ⟨rfl, rfl, h0, rfl, rfl, rfl⟩

/-- C6 as stated is false: the advance action clears a pending notification
even when it otherwise does nothing.  Concretely, in `Shipping` /
`SelectAddress` with notification `some "boom"`, advancing changes the
state (the notification becomes `none`). -/
theorem C6_counterexample :
    next_checkout_step none
        { exBase with checkout_step := CheckoutStep.Shipping,
                      shipping_mode := ShippingMode.SelectAddress,
                      notification := some "boom" } ≠
      { exBase with checkout_step := CheckoutStep.Shipping,
                    shipping_mode := ShippingMode.SelectAddress,
                    notification := some "boom" } := by
  intro h
  have h2 := congrArg AppState.notification h
  simp [next_checkout_step, exBase] at h2

/-- C6 amended: a bare advance in `Shipping`/`SelectAddress`, and an advance
in `Payment` with no payment method chosen, change nothing in the session
state except the notification, which the advance action always clears. -/
theorem C6_advance_only_clears_notification (dbReply : Option SavedAddress)
    (s : AppState)
    (h : (s.checkout_step = CheckoutStep.Shipping ∧
          s.shipping_mode = ShippingMode.SelectAddress) ∨
         (s.checkout_step = CheckoutStep.Payment ∧ s.payment_method = none)) :
    next_checkout_step dbReply s = { s with notification := none } := by
  rcases h with ⟨h1, h2⟩ | ⟨h1, h2⟩
  · simp [next_checkout_step, h1, h2]
  · simp [next_checkout_step, h1, h2]

def exPayNoMethod : AppState :=
  { exBase with checkout_step := CheckoutStep.Payment, payment_method := none,
                notification := some "x" }

theorem C6_witness :
    (exPayNoMethod.checkout_step = CheckoutStep.Payment ∧
     exPayNoMethod.payment_method = none) ∧
    next_checkout_step none exPayNoMethod =
      { exPayNoMethod with notification := none } :=
  ⟨⟨rfl, rfl⟩,
    C6_advance_only_clears_notification none exPayNoMethod (Or.inr ⟨rfl, rfl⟩)⟩

/-- C8: the digit-only payment fields drop non-digit characters and refuse
insertion at their caps (card number 16, expiry month 2, expiry year 4,
CVV 3); backspace drops the last character of the active field's value (a
no-op on the empty value); with no active field neither keystroke changes
any field value. -/
theorem C8_input_editing_rules (s : AppState) (c : Char) :
    (s.active_input = InputField.CardNumber →
      (handle_input_char c s).payment_info.card_number =
        if c.isDigit ∧ s.payment_info.card_number.length < 16
        then s.payment_info.card_number.push c else s.payment_info.card_number) ∧
    (s.active_input = InputField.ExpiryMonth →
      (handle_input_char c s).payment_info.expiry_month =
        if c.isDigit ∧ s.payment_info.expiry_month.length < 2
        then s.payment_info.expiry_month.push c else s.payment_info.expiry_month) ∧
    (s.active_input = InputField.ExpiryYear →
      (handle_input_char c s).payment_info.expiry_year =
        if c.isDigit ∧ s.payment_info.expiry_year.length < 4
        then s.payment_info.expiry_year.push c else s.payment_info.expiry_year) ∧
    (s.active_input = InputField.Cvv →
      (handle_input_char c s).payment_info.cvv =
        if c.isDigit ∧ s.payment_info.cvv.length < 3
        then s.payment_info.cvv.push c else s.payment_info.cvv) ∧
    (s.active_input ≠ InputField.None →
      fieldValue (handle_input_backspace s) s.active_input =
        (fieldValue s s.active_input).dropRight 1) ∧
    (s.active_input = InputField.None →
      handle_input_backspace s = s ∧
      ∀ f, fieldValue (handle_input_char c s) f = fieldValue s f) := by
  refine ⟨?_, ?_, ?_, ?_, ?_, ?_⟩
  · intro h
    by_cases hP : c.isDigit ∧ s.payment_info.card_number.length < 16 <;>
      simp [handle_input_char, h, hP]
  · intro h
    by_cases hP : c.isDigit ∧ s.payment_info.expiry_month.length < 2 <;>
      simp [handle_input_char, h, hP]
  · intro h
    by_cases hP : c.isDigit ∧ s.payment_info.expiry_year.length < 4 <;>
      simp [handle_input_char, h, hP]
  · intro h
    by_cases hP : c.isDigit ∧ s.payment_info.cvv.length < 3 <;>
      simp [handle_input_char, h, hP]
  · intro hne
    cases ha : s.active_input <;>
      simp [handle_input_backspace, fieldValue, ha] <;>
      exact absurd ha hne
  · intro h
    refine ⟨by simp [handle_input_backspace, h], ?_⟩
    intro f
    cases f <;> simp [handle_input_char, fieldValue, h]

def exCard : AppState :=
  { exBase with active_input := InputField.CardNumber,
                checkout_step := CheckoutStep.Payment,
                payment_method := some PaymentMethod.Ssh,
                payment_info := { PaymentInfo.default with card_number := "4242" } }

theorem C8_witness :
    exCard.active_input = InputField.CardNumber ∧
    (handle_input_char '7' exCard).payment_info.card_number =
      (if '7'.isDigit ∧ exCard.payment_info.card_number.length < 16
       then exCard.payment_info.card_number.push '7'
       else exCard.payment_info.card_number) :=
  ⟨rfl, (C8_input_editing_rules exCard '7').1 rfl⟩

/-- C10: backspace leaves the notification exactly as it was, while
character insertion and field navigation both clear any pending
notification. -/
theorem C10_backspace_preserves_notification (s : AppState) (c : Char) :
    (handle_input_backspace s).notification = s.notification ∧
    (handle_input_char c s).notification = none ∧
    (next_input_field s).notification = none := by
  refine ⟨?_, ?_, ?_⟩
  · cases h : s.active_input <;> simp [handle_input_backspace, h]
  · cases h : s.active_input <;>
      simp [handle_input_char, h, apply_ite AppState.notification]
  · cases h : s.checkout_step <;>
      simp [next_input_field, h, apply_ite AppState.notification]

end Anora
